import Mathlib

/-!
Verification of the claude_telemetry session/span lifecycle
(`claude_telemetry/hooks.py`), the Logfire vendor projection
(`claude_telemetry/logfire_adapter.py`) and the MCP config loader
(`claude_telemetry/mcp.py`), as a shallow embedding.

Modelling conventions:
* Python dicts are insertion-ordered association lists over `String` keys;
  `dinsert` updates an existing binding in place or appends a new one,
  `dremove` deletes the (unique) binding, matching `dict.__setitem__` /
  `del`.
* Dynamically typed tool payloads are the tagged union `PyVal`;
  `pyStr`/`pyRepr` model Python `str()`/`repr()` for payloads whose
  strings contain no quote or escape characters (the repr escaping rules
  for special characters are not modelled).
* OpenTelemetry spans are `Span` records; `Span.end` is modelled by
  setting `ended := true` and handing the span to the export pipeline
  (the `exported` list of the controller state), which is what ending a
  span does observably.
* Exceptions are `PyErr`; every hook returns its Python result together
  with the controller state at the moment of return or raise, so state
  mutated before a raise persists, as in Python.
* `time.time()` is an explicit `now : Nat` argument; the float formatting
  of the session-summary log line is rendered with `toString`.
* The five diagnostic `logger.info` lines at the top of
  `on_post_tool_use` are condensed to three entries with the same levels;
  log entries carry a level and a message string.
-/

/-- Log levels of the `logger` collaborator. -/
inductive LogLevel where
  | debug
  | info
  | error
  | warning
deriving DecidableEq, Repr

/-- Python exceptions that the embedded code can raise.
`externalError` stands for an exception raised by the external
`force_flush` primitive of the export pipeline. -/
inductive PyErr where
  | runtimeError (msg : String)
  | keyError (key : String)
  | externalError (msg : String)
deriving DecidableEq, Repr

/-- Tagged union over the dynamically typed Python values that appear in
tool inputs and outputs (`str`, `int`, `bool`, `None`, `dict`, `list`). -/
inductive PyVal where
  | str : String → PyVal
  | int : Int → PyVal
  | bool : Bool → PyVal
  | none : PyVal
  | dict : List (String × PyVal) → PyVal
  | list : List PyVal → PyVal

/-- Single-quote character, written via its code point. -/
def squote : String := "\x27"

/-- Python slicing `s[:n]` (same as `String.take`, defined over the
character list so that it evaluates under kernel reduction). -/
def strTake (s : String) (n : Nat) : String := ⟨s.data.take n⟩

/-- Python `s.startswith(pre)` (same as `String.startsWith`, defined
over the character lists so that it evaluates under kernel reduction). -/
def strStartsWith (s pre : String) : Bool := pre.data.isPrefixOf s.data

mutual
/-- Python `repr()` of a `PyVal` (strings without special characters). -/
def pyRepr : PyVal → String
  | .str s => squote ++ s ++ squote
  | .int n => toString n
  | .bool b => if b then "True" else "False"
  | .none => "None"
  | .dict fs => "\x7b" ++ String.intercalate ", " (pyReprEntries fs) ++ "\x7d"
  | .list xs => "[" ++ String.intercalate ", " (pyReprList xs) ++ "]"

/-- `repr()` of the entries of a Python dict, in insertion order. -/
def pyReprEntries : List (String × PyVal) → List String
  | [] => []
  | (k, v) :: rest => (squote ++ k ++ squote ++ ": " ++ pyRepr v) :: pyReprEntries rest

/-- `repr()` of the elements of a Python list. -/
def pyReprList : List PyVal → List String
  | [] => []
  | v :: rest => pyRepr v :: pyReprList rest
end

/-- Python `str()`: identity on strings, `repr()` on everything else. -/
def pyStr : PyVal → String
  | .str s => s
  | v => pyRepr v

/-- Python truthiness of a `PyVal`. -/
def pyTruthy : PyVal → Bool
  | .str s => !s.isEmpty
  | .int n => n != 0
  | .bool b => b
  | .none => false
  | .dict fs => !fs.isEmpty
  | .list xs => !xs.isEmpty

/-- Lookup in a Python dict (association list keyed by strings). -/
def dlookup {α : Type} : List (String × α) → String → Option α
  | [], _ => Option.none
  | (k, v) :: rest, key => if k = key then some v else dlookup rest key

/-- `d[key] = v`: update the existing binding in place, else append. -/
def dinsert {α : Type} : List (String × α) → String → α → List (String × α)
  | [], key, v => [(key, v)]
  | (k, w) :: rest, key, v =>
      if k = key then (k, v) :: rest else (k, w) :: dinsert rest key v

/-- `del d[key]` / `d.pop(key)`: remove the first binding of `key`. -/
def dremove {α : Type} : List (String × α) → String → List (String × α)
  | [], _ => []
  | (k, w) :: rest, key => if k = key then rest else (k, w) :: dremove rest key

/-- Deduplicate keeping first occurrences (stands in for Python `set`
iteration, whose order the code does not rely on for any claim). -/
def dedupAux : List String → List String → List String
  | [], _ => []
  | x :: xs, seen =>
      if x ∈ seen then dedupAux xs seen else x :: dedupAux xs (x :: seen)

/-- Deduplicated tool-name list. -/
def dedupFirst (l : List String) : List String := dedupAux l []

/-- Scalar values an OpenTelemetry span attribute can hold here. -/
inductive AttrVal where
  | s : String → AttrVal
  | n : Nat → AttrVal
  | b : Bool → AttrVal
  | ls : List String → AttrVal
deriving DecidableEq, Repr

/-- An observability span: name, attributes, timestamped events and the
ended flag (`end()` sets it exactly once and hands the span to the
exporter). -/
structure Span where
  name : String
  attrs : List (String × AttrVal)
  events : List (String × List (String × AttrVal))
  ended : Bool
deriving DecidableEq, Repr

/-- `span.set_attribute(key, val)`. -/
def Span.set_attribute (sp : Span) (key : String) (val : AttrVal) : Span :=
  { sp with attrs := dinsert sp.attrs key val }

/-- `span.add_event(name, attributes)`. -/
def Span.add_event (sp : Span) (ev : String) (evAttrs : List (String × AttrVal)) : Span :=
  { sp with events := sp.events ++ [(ev, evAttrs)] }

/-- The `self.metrics` dict of `TelemetryHooks` once a session is open
(`on_user_prompt_submit` populates every key). -/
structure Metrics where
  prompt : String
  model : String
  input_tokens : Nat
  output_tokens : Nat
  tools_used : Nat
  turns : Nat
  start_time : Nat
deriving DecidableEq, Repr

/-- State of one `TelemetryHooks` controller instance.
`metrics = Option.none` models the empty dict `{}` (initial state and
after reset), in which any `self.metrics[...]` access raises `KeyError`.
`exported` is the export pipeline's view: every span receives exactly
one entry there when `end()` is called on it. -/
structure HooksState where
  session_span : Option Span
  tool_spans : List (String × Span)
  metrics : Option Metrics
  messages : List (String × String)
  tools_used : List String
  exported : List Span
  log : List (LogLevel × String)
deriving Repr

/-- `TelemetryHooks.__init__`. -/
def initHooks : HooksState :=
  ⟨Option.none, [], Option.none, [], [], [], []⟩

/-- A hook's Python return value (a small string-keyed dict). -/
abbrev HookResult := List (String × String)

/-- Result of running one hook: the Python return value or the raised
exception, together with the controller state at that moment. -/
abbrev HookOut := Except PyErr HookResult × HooksState

/-- The session span built by `on_user_prompt_submit`: the title is a
60-character prompt preview with an ellipsis, the initial attributes are
prompt/model/session id, and the prompt-submitted event is appended. -/
def newSessionSpan (prompt model session_id : String) : Span :=
  { name := "🤖 " ++ (if prompt.length > 60 then strTake prompt 60 ++ "..." else prompt),
    attrs := [("prompt", .s prompt), ("model", .s model), ("session_id", .s session_id)],
    events := [("👤 User prompt submitted", [("prompt", .s prompt)])],
    ended := false }

/-- `TelemetryHooks.on_user_prompt_submit`: unconditionally re-initialises
`self.metrics`, opens a fresh session span and appends the user message.
There is no check of `self.session_span`, so a prior open session span is
simply overwritten (never ended, never exported). -/
def on_user_prompt_submit (prompt session_id model : String) (now : Nat)
    (st : HooksState) : HookOut :=
  (.ok [],
   { st with
       session_span := some (newSessionSpan prompt model session_id),
       metrics := some
         { prompt := prompt, model := model, input_tokens := 0, output_tokens := 0,
           tools_used := 0, turns := 0, start_time := now },
       messages := st.messages ++ [("user", prompt)],
       log := st.log ++ [(.debug, "🎯 Span created: " ++
         ("🤖 " ++ (if prompt.length > 60 then strTake prompt 60 ++ "..." else prompt)))] })

/-- Projection of `tool_input` entries onto individual span attributes:
string values shorter than 100 characters become `tool.input.<key>`
attributes; every other shape is skipped by this loop. -/
def projectInputs : List (String × PyVal) → Span → Span
  | [], sp => sp
  | (k, v) :: rest, sp =>
      projectInputs rest
        (match v with
         | .str s => if s.length < 100 then sp.set_attribute ("tool.input." ++ k) (.s s) else sp
         | _ => sp)

/-- The tool span built by `on_pre_tool_use`: named after the tool, with
the `tool.name` attribute and, for a non-empty input, the short-string
attributes plus one `Tool input` event holding `str(tool_input)[:500]`
(a bare slice: no ellipsis marker is appended). -/
def buildToolSpan (tool_name : String) (tool_input : List (String × PyVal)) : Span :=
  let base : Span :=
    { name := "🔧 " ++ tool_name, attrs := [("tool.name", .s tool_name)],
      events := [], ended := false }
  if tool_input.isEmpty then base
  else
    (projectInputs tool_input base).add_event "Tool input"
      [("input", .s (strTake (pyStr (.dict tool_input)) 500))]

/-- `tool_id = tool_use_id or f"{tool_name}_{time.time()}"`: an absent or
empty (falsy) id is replaced by the synthesised `name_timestamp` key. -/
def resolveToolId (tool_use_id : Option String) (tool_name : String) (now : Nat) : String :=
  match tool_use_id with
  | some id => if id = "" then tool_name ++ "_" ++ toString now else id
  | Option.none => tool_name ++ "_" ++ toString now

/-- Console log entries of a successful `on_pre_tool_use`. -/
def preLogs (tool_name : String) (tool_input : List (String × PyVal)) :
    List (LogLevel × String) :=
  (.info, "🔧 Tool: " ++ tool_name) ::
    (if tool_input.isEmpty then []
     else [(.debug, "   Input: " ++ pyStr (.dict tool_input))])

/-- `TelemetryHooks.on_pre_tool_use`: raises the invariant error when no
session span is open; otherwise builds the child span, registers it in
the correlation table under the resolved key, counts the tool and
appends a `Tool started` event to the session span.  The `KeyError`
branch is unreachable from reachable states (an open session always has
populated metrics) but mirrors `self.metrics["tools_used"] += 1` on an
empty dict, with exactly the mutations made before that line. -/
def on_pre_tool_use (tool_name : String) (tool_input : List (String × PyVal))
    (tool_use_id : Option String) (now : Nat) (st : HooksState) : HookOut :=
  match st.session_span with
  | Option.none => (.error (.runtimeError "No active session span"), st)
  | some sess =>
    match st.metrics with
    | Option.none =>
        (.error (.keyError "tools_used"),
         { st with
             tool_spans := dinsert st.tool_spans (resolveToolId tool_use_id tool_name now)
               (buildToolSpan tool_name tool_input),
             tools_used := st.tools_used ++ [tool_name] })
    | some m =>
        (.ok [("tool_id", resolveToolId tool_use_id tool_name now)],
         { st with
             session_span := some (sess.add_event ("Tool started: " ++ tool_name) []),
             tool_spans := dinsert st.tool_spans (resolveToolId tool_use_id tool_name now)
               (buildToolSpan tool_name tool_input),
             metrics := some { m with tools_used := m.tools_used + 1 },
             tools_used := st.tools_used ++ [tool_name],
             log := st.log ++ preLogs tool_name tool_input })

/-- Name-based fallback of the span search: walk the correlation table in
reverse insertion order and take the first key that starts with
`"{tool_name}_"` or equals the supplied id. -/
def fallbackFind (tool_name : String) (tool_use_id : Option String)
    (tbl : List (String × Span)) : Option (String × Span) :=
  tbl.reverse.find? (fun p =>
    strStartsWith p.1 (tool_name ++ "_") || tool_use_id == some p.1)

/-- Span resolution of `on_post_tool_use`: the exact `tool_use_id` match
is tried first, but only when the id is truthy (non-empty), mirroring
`if tool_use_id and tool_use_id in self.tool_spans`; otherwise the
name-based fallback runs. -/
def findToolSpan (tool_name : String) (tool_use_id : Option String)
    (tbl : List (String × Span)) : Option (String × Span) :=
  match tool_use_id with
  | some id =>
      if id = "" then fallbackFind tool_name (some id) tbl
      else
        match dlookup tbl id with
        | some sp => some (id, sp)
        | Option.none => fallbackFind tool_name (some id) tbl
  | Option.none => fallbackFind tool_name Option.none tbl

/-- `on_post_tool_use`'s mutation of the resolved span: response
attribute, error attributes for dict outputs with `error`/truthy
`isError` entries, a `Tool response` event capped at 1000 characters
with an explicit `...` marker, and finally `end()`. -/
def finishToolSpan (tool_response : Option PyVal) (sp : Span) : Span :=
  match tool_response with
  | Option.none => { sp with ended := true }
  | some r =>
      let s1 := sp.set_attribute "tool.response" (.s (pyStr r))
      let s2 :=
        match r with
        | .dict d =>
            let sErr :=
              match dlookup d "error" with
              | some e => s1.set_attribute "tool.error" (.s (pyStr e))
              | Option.none => s1
            (match dlookup d "isError" with
             | some v => if pyTruthy v then sErr.set_attribute "tool.is_error" (.b true) else sErr
             | Option.none => sErr)
        | _ => s1
      let s3 :=
        if (pyStr r).length > 1000 then
          s2.add_event "Tool response" [("response", .s (strTake (pyStr r) 1000 ++ "..."))]
        else
          s2.add_event "Tool response" [("response", .s (pyStr r))]
      { s3 with ended := true }

/-- The unconditional diagnostic log entries at the top of
`on_post_tool_use` (condensed; levels preserved). -/
def postLogs (tool_name : String) (tool_response : Option PyVal) :
    List (LogLevel × String) :=
  [(.info, "📥 POST_TOOL: " ++ tool_name),
   (.info, "   Has response: " ++ (if tool_response.isSome then "True" else "False")),
   (.info, "   Response: " ++
     strTake (pyStr (match tool_response with | some r => r | Option.none => .none)) 200)]

/-- Rendering of an optional id inside an f-string (`None` when absent). -/
def optStr : Option String → String
  | Option.none => "None"
  | some s => s

/-- The error-level log entries emitted when no span is found. -/
def missLogs (tool_name : String) (tool_use_id : Option String)
    (tbl : List (String × Span)) : List (LogLevel × String) :=
  [(.error, "❌ No span found for tool: " ++ tool_name ++
     " (id: " ++ optStr tool_use_id ++ ")"),
   (.error, "   Active spans: [" ++ String.intercalate ", " (tbl.map Prod.fst) ++ "]")]

/-- Console log entries for a resolved span's response handling. -/
def respLogs (tool_name : String) (tool_response : Option PyVal) :
    List (LogLevel × String) :=
  match tool_response with
  | Option.none => []
  | some r =>
      [(.info, "✅ Tool response: " ++ tool_name),
       (.info, "   Response: " ++ strTake (pyStr r) 500)]
      ++ (if (pyStr r).length > 500 then [(.debug, "   Full response: " ++ pyStr r)] else [])
      ++ (match r with
          | .dict d =>
              (match dlookup d "error" with
               | some e => [(.error, "❌ Tool error: " ++ tool_name),
                            (.error, "   Error: " ++ pyStr e)]
               | Option.none => [])
              ++ (match dlookup d "isError" with
                  | some v => if pyTruthy v then [(.error, "❌ Tool failed: " ++ tool_name)] else []
                  | Option.none => [])
          | _ => [])

/-- The table/exporter mutation of `on_post_tool_use`, given the result
of the span search.  On a miss only the error logging happens.  On a hit
the span is finished and handed to the exporter; the table entry is
deleted only under `if span_id:`, i.e. when the resolved key is truthy. -/
def postApply (tool_name : String) (tool_response : Option PyVal)
    (tool_use_id : Option String) (st : HooksState)
    (found : Option (String × Span)) : HooksState :=
  match found with
  | Option.none =>
      { st with log := st.log ++ postLogs tool_name tool_response
          ++ missLogs tool_name tool_use_id st.tool_spans }
  | some (span_id, sp) =>
      { st with
          tool_spans := if span_id = "" then st.tool_spans else dremove st.tool_spans span_id,
          exported := st.exported ++ [finishToolSpan tool_response sp],
          log := st.log ++ postLogs tool_name tool_response ++ respLogs tool_name tool_response }

/-- `TelemetryHooks.on_post_tool_use`: resolves the open span (exact id
match first, name fallback second), finishes and deregisters it when
found, logs and drops the event when not, and appends a `Tool completed`
event to the session span when one is open.  It never raises. -/
def on_post_tool_use (tool_name : String) (tool_response : Option PyVal)
    (tool_use_id : Option String) (st : HooksState) : HookOut :=
  let st1 := postApply tool_name tool_response tool_use_id st
    (findToolSpan tool_name tool_use_id st.tool_spans)
  match st1.session_span with
  | Option.none => (.ok [], st1)
  | some sess =>
      (.ok [], { st1 with session_span := some (sess.add_event ("Tool completed: " ++ tool_name) []) })

/-- Appending the assistant content to the message log
(`if hasattr(message, "content")`). -/
def appendContent (content : Option String) (st : HooksState) : HooksState :=
  match content with
  | Option.none => st
  | some c => { st with messages := st.messages ++ [("assistant", c)] }

/-- `TelemetryHooks.on_message_complete`: when the message carries usage
data the token deltas are added to `self.metrics` — an access that
raises `KeyError` when the metrics dict is empty (IDLE state), because
the increments are not guarded by the `if self.session_span` check that
protects only the span updates.  The assistant content is appended to
the message log in every non-raising path. -/
def on_message_complete (usage : Option (Nat × Nat)) (content : Option String)
    (st : HooksState) : HookOut :=
  match usage with
  | Option.none => (.ok [], appendContent content st)
  | some (it, ot) =>
      match st.metrics with
      | Option.none => (.error (.keyError "input_tokens"), st)
      | some m =>
          let m2 := { m with input_tokens := m.input_tokens + it,
                             output_tokens := m.output_tokens + ot,
                             turns := m.turns + 1 }
          let st1 := { st with metrics := some m2 }
          match st.session_span with
          | Option.none => (.ok [], appendContent content st1)
          | some sess =>
              let ss1 := ((sess.set_attribute "gen_ai.usage.input_tokens" (.n m2.input_tokens)).set_attribute
                  "gen_ai.usage.output_tokens" (.n m2.output_tokens)).set_attribute
                  "turns" (.n m2.turns)
              let ss2 := ss1.add_event "Turn completed"
                [("turn", .n m2.turns), ("input_tokens", .n it), ("output_tokens", .n ot)]
              (.ok [], appendContent content { st1 with session_span := some ss2 })

/-- `TelemetryHooks.on_pre_compact`: informational event only. -/
def on_pre_compact (trigger : String) (custom_instructions : Option String)
    (st : HooksState) : HookOut :=
  match st.session_span with
  | Option.none => (.ok [], st)
  | some sess =>
      (.ok [], { st with session_span := some (sess.add_event "Context compaction"
          [("trigger", .s trigger),
           ("has_custom_instructions", .b custom_instructions.isSome)]) })

/-- The final mutation of the session span in `complete_session`: final
model/tool attributes, the deduplicated tool-name list when any tool
ran, the completion event, and `end()`. -/
def finalizeSessionSpan (sess : Span) (m : Metrics) (tools : List String) : Span :=
  let s3 := ((sess.set_attribute "gen_ai.request.model" (.s m.model)).set_attribute
      "gen_ai.response.model" (.s m.model)).set_attribute "tools_used" (.n m.tools_used)
  let s4 := if tools.isEmpty then s3
    else s3.set_attribute "tool_names" (.s (String.intercalate "," (dedupFirst tools)))
  let s5 := s4.add_event "🎉 Completed" []
  { s5 with ended := true }

/-- The human-readable session summary log line. -/
def completedSummary (m : Metrics) (now : Nat) : String :=
  "✅ Session completed | " ++ toString m.input_tokens ++ " in, " ++
  toString m.output_tokens ++ " out | " ++ toString m.tools_used ++
  " tools | " ++ toString (now - m.start_time) ++ "s"

/-- `TelemetryHooks.complete_session`: raises the invariant error without
an open session; otherwise finalises and ends the session span, then
calls the pipeline's `force_flush` — which is not wrapped in any
`try`/`except`, so a flush failure (modelled by `flushFails`) propagates
to the caller and the state reset below it does not run.  Only after a
successful flush are the summary logged and all session fields reset. -/
def complete_session (flushFails : Bool) (now : Nat) (st : HooksState) :
    Except PyErr Unit × HooksState :=
  match st.session_span with
  | Option.none => (.error (.runtimeError "No active session span"), st)
  | some sess =>
    match st.metrics with
    | Option.none => (.error (.keyError "model"), st)
    | some m =>
      let fin := finalizeSessionSpan sess m st.tools_used
      let stEnded := { st with session_span := some fin, exported := st.exported ++ [fin] }
      if flushFails then
        (.error (.externalError "force_flush raised"), stEnded)
      else
        (.ok (),
         { stEnded with
             session_span := Option.none, tool_spans := [], metrics := Option.none,
             messages := [], tools_used := [],
             log := stEnded.log ++ [(.info, completedSummary m now)] })

/-! ### Logfire vendor projection (`logfire_adapter.format_for_logfire_llm`) -/

/-- JSON values produced by the vendor projection. -/
inductive Json where
  | str : String → Json
  | num : Nat → Json
  | obj : List (String × Json) → Json
  | arr : List Json → Json

mutual
/-- `json.dumps` (strings without characters needing escapes). -/
def jsonDumps : Json → String
  | .str s => "\"" ++ s ++ "\""
  | .num n => toString n
  | .obj fs => "\x7b" ++ String.intercalate ", " (jsonDumpsEntries fs) ++ "\x7d"
  | .arr xs => "[" ++ String.intercalate ", " (jsonDumpsList xs) ++ "]"

/-- `json.dumps` of object entries. -/
def jsonDumpsEntries : List (String × Json) → List String
  | [] => []
  | (k, v) :: rest => ("\"" ++ k ++ "\": " ++ jsonDumps v) :: jsonDumpsEntries rest

/-- `json.dumps` of array elements. -/
def jsonDumpsList : List Json → List String
  | [] => []
  | v :: rest => jsonDumps v :: jsonDumpsList rest
end

/-- Field access on a JSON object. -/
def jfield : Json → String → Option Json
  | .obj fs, k => dlookup fs k
  | _, _ => Option.none

/-- The `request_data` blob: model and messages, plus the deduplicated
tool list appended when any tools were used. -/
def requestData (model : String) (messages : List (String × String))
    (tools_used : List String) : Json :=
  .obj ([("model", .str model),
         ("messages", .arr (messages.map (fun rc =>
            .obj [("role", .str rc.1), ("content", .str rc.2)])))]
        ++ (if tools_used.isEmpty then []
            else [("tools", .arr ((dedupFirst tools_used).map (fun t => .obj [("name", .str t)])))]))

/-- The `usage` sub-object: each token field is included only when its
count is truthy, and `total_tokens` only when both are. -/
def usageData (input_tokens output_tokens : Nat) : Json :=
  .obj ((if input_tokens ≠ 0 then [("input_tokens", .num input_tokens)] else [])
        ++ (if output_tokens ≠ 0 then [("output_tokens", .num output_tokens)] else [])
        ++ (if input_tokens ≠ 0 ∧ output_tokens ≠ 0 then
              [("total_tokens", .num (input_tokens + output_tokens))] else []))

/-- The `response_data` blob: the assistant message, plus the `usage`
sub-object exactly when at least one token count is truthy
(`if input_tokens or output_tokens`). -/
def responseData (response : String) (input_tokens output_tokens : Nat) : Json :=
  .obj ([("message", .obj [("role", .str "assistant"), ("content", .str response)])]
        ++ (if input_tokens ≠ 0 ∨ output_tokens ≠ 0 then
              [("usage", usageData input_tokens output_tokens)] else []))

/-- `if cost_usd is not None: span.set_attribute("llm.usage.cost_usd", ...)`. -/
def setCost (cost_usd : Option Nat) (sp : Span) : Span :=
  match cost_usd with
  | Option.none => sp
  | some c => sp.set_attribute "llm.usage.cost_usd" (.n c)

/-- `format_for_logfire_llm`: sets the request/response blobs, the LLM
tags and the flat numeric mirrors on the span.  Token parameters are the
non-negative counts the controller passes; `0` is falsy, matching the
`if input_tokens` tests on `Optional[int]` arguments.  `cost_usd` is
compared against `None`, not truthiness. -/
def format_for_logfire_llm (sp : Span) (model : String)
    (messages : List (String × String)) (response : Option String)
    (tools_used : List String) (input_tokens output_tokens : Nat)
    (cost_usd : Option Nat) : Span :=
  let s1 := (sp.set_attribute "request_data"
      (.s (jsonDumps (requestData model messages tools_used)))).set_attribute
      "llm.request.model" (.s model)
  let s2 :=
    match response with
    | Option.none => s1
    | some r =>
        if r = "" then s1
        else s1.set_attribute "response_data" (.s (jsonDumps (responseData r input_tokens output_tokens)))
  let s3 := (s2.set_attribute "span.kind" (.s "LLM")).set_attribute "logfire.span_type" (.s "llm")
  let s4 := if input_tokens ≠ 0 then s3.set_attribute "llm.usage.input_tokens" (.n input_tokens) else s3
  let s5 := if output_tokens ≠ 0 then s4.set_attribute "llm.usage.output_tokens" (.n output_tokens) else s4
  let s6 := setCost cost_usd s5
  if tools_used.isEmpty then s6
  else (s6.set_attribute "llm.tools.count" (.n tools_used.length)).set_attribute
    "llm.tools.names" (.ls tools_used)

/-! ### MCP config loader (`mcp.load_mcp_config`) -/

/-- Outcome of locating and JSON-parsing the `.mcp.json` file: the file
may be missing, contain malformed JSON, or parse to an `mcpServers`
mapping of server names to descriptor dicts. -/
inductive McpLoadInput where
  | missing
  | malformedJson
  | parsed (mcpServers : List (String × List (String × PyVal)))

/-- Per-server conversion: `sdk_server["type"] = sdk_server.pop("transport")`
when a `transport` field is present.  The `pop` removes `transport` and
the assignment writes `type` — overwriting a pre-existing `type` binding
in place. -/
def convertServer (desc : List (String × PyVal)) : List (String × PyVal) :=
  match dlookup desc "transport" with
  | Option.none => desc
  | some tv => dinsert (dremove desc "transport") "type" tv

/-- `load_mcp_config`: a missing file, malformed JSON (both exception
paths return inside `except`) or an empty `mcpServers` section all yield
`none`; otherwise every descriptor is converted. -/
def load_mcp_config : McpLoadInput → Option (List (String × List (String × PyVal)))
  | .missing => Option.none
  | .malformedJson => Option.none
  | .parsed servers =>
      if servers.isEmpty then Option.none
      else some (servers.map (fun nd => (nd.1, convertServer nd.2)))

/-! ### Tool-call traces for the correlation invariant -/

/-- One tool-lifecycle hook call with a runtime-supplied call id. -/
inductive ToolEvent where
  | pre (name : String) (input : List (String × PyVal)) (id : String) (now : Nat)
  | post (name : String) (resp : Option PyVal) (id : String)

/-- Run one tool event through the corresponding hook. -/
def runToolEvent (st : HooksState) : ToolEvent → Except PyErr HooksState
  | .pre n inp id now =>
      match on_pre_tool_use n inp (some id) now st with
      | (.ok _, st2) => .ok st2
      | (.error e, _) => .error e
  | .post n r id =>
      match on_post_tool_use n r (some id) st with
      | (.ok _, st2) => .ok st2
      | (.error e, _) => .error e

/-- Run a list of tool events, stopping at the first raised exception. -/
def runTrace (st : HooksState) : List ToolEvent → Except PyErr HooksState
  | [] => .ok st
  | e :: rest =>
      match runToolEvent st e with
      | .ok st2 => runTrace st2 rest
      | .error err => .error err

/-- Checker for the claim's hypothesis: every call supplies an id, pre
ids are globally unique (`used` collects them all), every post matches a
currently pending pre, and at the end every pair has completed. -/
def pairedOK : List String → List String → List ToolEvent → Bool
  | _, pending, [] => pending.isEmpty
  | used, pending, .pre _ _ id _ :: rest =>
      if id ∈ used then false else pairedOK (used ++ [id]) (pending ++ [id]) rest
  | used, pending, .post _ _ id :: rest =>
      if id ∈ pending then pairedOK used (pending.erase id) rest else false

/-- All supplied ids are non-empty (truthy in Python). -/
def allIdsNonempty : List ToolEvent → Bool
  | [] => true
  | .pre _ _ id _ :: rest => if id = "" then false else allIdsNonempty rest
  | .post _ _ id :: rest => if id = "" then false else allIdsNonempty rest

/-! ### Association-list (Python dict) lemmas -/

/-- Prepending the same string on the left is injective:
`s ++ a = s ++ b → a = b`. -/
theorem string_append_right_inj (s a b : String) (h : s ++ a = s ++ b) : a = b := by
  have h2 : (s ++ a).data = (s ++ b).data := congrArg String.data h
  rw [String.data_append, String.data_append] at h2
  have h3 := List.append_cancel_left h2
  cases a
  cases b
  exact congrArg String.mk h3

/-- Looking up the freshly written key finds the new value. -/
theorem dlookup_dinsert_self {α : Type} (d : List (String × α)) (k : String) (v : α) :
    dlookup (dinsert d k v) k = some v := by
  induction d with
  | nil => simp [dinsert, dlookup]
  | cons hd tl ih =>
      obtain ⟨k0, w⟩ := hd
      by_cases hk : k0 = k
      · subst hk
        simp [dinsert, dlookup]
      · simp [dinsert, dlookup, hk, ih]

/-- Writing one key leaves every other key's lookup unchanged. -/
theorem dlookup_dinsert_ne {α : Type} (d : List (String × α)) (k k2 : String) (v : α)
    (h : k2 ≠ k) : dlookup (dinsert d k v) k2 = dlookup d k2 := by
  have hne : ¬k = k2 := fun hc => h hc.symm
  induction d with
  | nil => simp [dinsert, dlookup, hne]
  | cons hd tl ih =>
      obtain ⟨k0, w⟩ := hd
      by_cases hk : k0 = k
      · subst hk
        simp [dinsert, dlookup, hne]
      · by_cases hk2 : k0 = k2
        · subst hk2
          simp [dinsert, dlookup, hk]
        · simp [dinsert, dlookup, hk, hk2, ih]

/-- Deleting one key leaves every other key's lookup unchanged. -/
theorem dlookup_dremove_ne {α : Type} (d : List (String × α)) (k k2 : String)
    (h : k2 ≠ k) : dlookup (dremove d k) k2 = dlookup d k2 := by
  induction d with
  | nil => simp [dremove]
  | cons hd tl ih =>
      obtain ⟨k0, w⟩ := hd
      by_cases hk : k0 = k
      · subst hk
        have hne : ¬k0 = k2 := fun hc => h hc.symm
        simp [dremove, dlookup, hne]
      · by_cases hk2 : k0 = k2
        · subst hk2
          simp [dremove, dlookup, hk]
        · simp [dremove, dlookup, hk, hk2, ih]

/-- A key that is absent from the key list looks up to nothing. -/
theorem dlookup_eq_none_of_not_mem {α : Type} (d : List (String × α)) (k : String)
    (h : k ∉ d.map Prod.fst) : dlookup d k = Option.none := by
  induction d with
  | nil => simp [dlookup]
  | cons hd tl ih =>
      obtain ⟨k0, w⟩ := hd
      simp only [List.map_cons, List.mem_cons] at h
      push_neg at h
      have hne : ¬k0 = k := fun hc => h.1 hc.symm
      simp [dlookup, hne, ih h.2]

/-- A key present in the key list looks up to some value. -/
theorem dlookup_isSome_of_mem {α : Type} (d : List (String × α)) (k : String)
    (h : k ∈ d.map Prod.fst) : ∃ v, dlookup d k = some v := by
  induction d with
  | nil => simp at h
  | cons hd tl ih =>
      obtain ⟨k0, w⟩ := hd
      by_cases hk : k0 = k
      · exact ⟨w, by simp [dlookup, hk]⟩
      · simp only [List.map_cons, List.mem_cons] at h
        rcases h with h | h
        · exact absurd h.symm hk
        · obtain ⟨v, hv⟩ := ih h
          exact ⟨v, by simp [dlookup, hk, hv]⟩

/-- Writing an absent key appends it to the key list. -/
theorem keys_dinsert_of_not_mem {α : Type} (d : List (String × α)) (k : String) (v : α)
    (h : k ∉ d.map Prod.fst) : (dinsert d k v).map Prod.fst = d.map Prod.fst ++ [k] := by
  induction d with
  | nil => simp [dinsert]
  | cons hd tl ih =>
      obtain ⟨k0, w⟩ := hd
      simp only [List.map_cons, List.mem_cons] at h
      push_neg at h
      have hne : ¬k0 = k := fun hc => h.1 hc.symm
      simp [dinsert, hne, ih h.2]

/-- Deleting a key erases it from the key list. -/
theorem keys_dremove {α : Type} (d : List (String × α)) (k : String) :
    (dremove d k).map Prod.fst = (d.map Prod.fst).erase k := by
  induction d with
  | nil => simp [dremove]
  | cons hd tl ih =>
      obtain ⟨k0, w⟩ := hd
      by_cases hk : k0 = k
      · simp [dremove, hk, List.erase_cons]
      · simp [dremove, hk, List.erase_cons, ih]

/-- Deleting a key of a duplicate-free dict removes its binding. -/
theorem dlookup_dremove_self {α : Type} (d : List (String × α)) (k : String)
    (hnd : (d.map Prod.fst).Nodup) : dlookup (dremove d k) k = Option.none := by
  induction d with
  | nil => simp [dremove, dlookup]
  | cons hd tl ih =>
      obtain ⟨k0, w⟩ := hd
      simp only [List.map_cons, List.nodup_cons] at hnd
      by_cases hk : k0 = k
      · subst hk
        simp only [dremove, if_pos rfl]
        exact dlookup_eq_none_of_not_mem tl k0 hnd.1
      · simp [dremove, dlookup, hk, ih hnd.2]

/-! ### Span and hook shape lemmas -/

/-- Setting an attribute does not touch the event list. -/
theorem set_attribute_events (sp : Span) (k : String) (v : AttrVal) :
    (sp.set_attribute k v).events = sp.events := rfl

/-- Adding an event does not touch the attributes. -/
theorem add_event_attrs (sp : Span) (e : String) (a : List (String × AttrVal)) :
    (sp.add_event e a).attrs = sp.attrs := rfl

/-- The finished tool span is always ended. -/
theorem finishToolSpan_ended (r : Option PyVal) (sp : Span) :
    (finishToolSpan r sp).ended = true := by
  cases r with
  | none => rfl
  | some v => rfl

/-- One unfolding step of the projection loop on a short string entry. -/
theorem projectInputs_cons_str_short (k s : String) (tl : List (String × PyVal))
    (sp : Span) (hl : s.length < 100) :
    projectInputs ((k, PyVal.str s) :: tl) sp =
      projectInputs tl (sp.set_attribute ("tool.input." ++ k) (.s s)) := by
  simp [projectInputs, hl]

/-- One unfolding step of the projection loop on a long string entry. -/
theorem projectInputs_cons_str_long (k s : String) (tl : List (String × PyVal))
    (sp : Span) (hl : ¬s.length < 100) :
    projectInputs ((k, PyVal.str s) :: tl) sp = projectInputs tl sp := by
  simp [projectInputs, hl]

/-- The projection loop skips every non-string entry. -/
theorem projectInputs_cons_nonstr (k : String) (v : PyVal) (tl : List (String × PyVal))
    (sp : Span) (hv : ∀ s, v ≠ PyVal.str s) :
    projectInputs ((k, v) :: tl) sp = projectInputs tl sp := by
  cases v with
  | str s => exact absurd rfl (hv s)
  | int n => rfl
  | bool b => rfl
  | none => rfl
  | dict fs => rfl
  | list xs => rfl

/-- The input-projection loop never touches the event list. -/
theorem projectInputs_events (inp : List (String × PyVal)) :
    ∀ sp : Span, (projectInputs inp sp).events = sp.events := by
  induction inp with
  | nil => intro sp; rfl
  | cons hd tl ih =>
      intro sp
      obtain ⟨k, v⟩ := hd
      cases v with
      | str s =>
          by_cases hl : s.length < 100
          · rw [projectInputs_cons_str_short k s tl sp hl, ih]
            rfl
          · rw [projectInputs_cons_str_long k s tl sp hl, ih]
      | int n => rw [projectInputs_cons_nonstr k _ tl sp (by intro s h; cases h), ih]
      | bool b => rw [projectInputs_cons_nonstr k _ tl sp (by intro s h; cases h), ih]
      | none => rw [projectInputs_cons_nonstr k _ tl sp (by intro s h; cases h), ih]
      | dict fs => rw [projectInputs_cons_nonstr k _ tl sp (by intro s h; cases h), ih]
      | list xs => rw [projectInputs_cons_nonstr k _ tl sp (by intro s h; cases h), ih]

/-- Attribute keys not of the shape written by the projection loop are
unchanged by it. -/
theorem projectInputs_lookup_other (inp : List (String × PyVal)) :
    ∀ (sp : Span) (key : String),
      (∀ k2 ∈ inp.map Prod.fst, "tool.input." ++ k2 ≠ key) →
      dlookup (projectInputs inp sp).attrs key = dlookup sp.attrs key := by
  induction inp with
  | nil => intro sp key _; rfl
  | cons hd tl ih =>
      intro sp key h
      obtain ⟨k, v⟩ := hd
      have hk : "tool.input." ++ k ≠ key := h k (by simp)
      have htl : ∀ k2 ∈ tl.map Prod.fst, "tool.input." ++ k2 ≠ key :=
        fun k2 hm => h k2 (by simp [hm])
      cases v with
      | str s =>
          by_cases hl : s.length < 100
          · rw [projectInputs_cons_str_short k s tl sp hl, ih _ _ htl]
            exact dlookup_dinsert_ne _ _ _ _ (fun hc => hk hc.symm)
          · rw [projectInputs_cons_str_long k s tl sp hl]
            exact ih _ _ htl
      | int n => rw [projectInputs_cons_nonstr k _ tl sp (by intro s h2; cases h2)]; exact ih _ _ htl
      | bool b => rw [projectInputs_cons_nonstr k _ tl sp (by intro s h2; cases h2)]; exact ih _ _ htl
      | none => rw [projectInputs_cons_nonstr k _ tl sp (by intro s h2; cases h2)]; exact ih _ _ htl
      | dict fs => rw [projectInputs_cons_nonstr k _ tl sp (by intro s h2; cases h2)]; exact ih _ _ htl
      | list xs => rw [projectInputs_cons_nonstr k _ tl sp (by intro s h2; cases h2)]; exact ih _ _ htl

/-- Over a duplicate-free input dict, every string entry shorter than the
100-character threshold ends up as its own `tool.input.<key>` attribute. -/
theorem projectInputs_lookup_str (inp : List (String × PyVal)) :
    ∀ (sp : Span) (k : String) (v : String),
      (inp.map Prod.fst).Nodup → (k, PyVal.str v) ∈ inp → v.length < 100 →
      dlookup (projectInputs inp sp).attrs ("tool.input." ++ k) = some (.s v) := by
  induction inp with
  | nil => intro sp k v _ hmem; simp at hmem
  | cons hd tl ih =>
      intro sp k v hnd hmem hlen
      obtain ⟨k0, v0⟩ := hd
      simp only [List.map_cons, List.nodup_cons] at hnd
      rcases List.mem_cons.mp hmem with heq | htl
      · rw [Prod.mk.injEq] at heq
        obtain ⟨hk, hv⟩ := heq
        subst hk
        subst hv
        rw [projectInputs_cons_str_short k v tl sp hlen]
        have hno : ∀ k2 ∈ tl.map Prod.fst, "tool.input." ++ k2 ≠ "tool.input." ++ k := by
          intro k2 hm hc
          have hkk : k2 = k := string_append_right_inj _ _ _ hc
          subst hkk
          exact hnd.1 hm
        rw [projectInputs_lookup_other tl _ _ hno]
        exact dlookup_dinsert_self _ _ _
      · cases v0 with
        | str s =>
            by_cases hl : s.length < 100
            · rw [projectInputs_cons_str_short k0 s tl sp hl]
              exact ih _ k v hnd.2 htl hlen
            · rw [projectInputs_cons_str_long k0 s tl sp hl]
              exact ih _ k v hnd.2 htl hlen
        | int n =>
            rw [projectInputs_cons_nonstr k0 _ tl sp (by intro s h2; cases h2)]
            exact ih _ k v hnd.2 htl hlen
        | bool b =>
            rw [projectInputs_cons_nonstr k0 _ tl sp (by intro s h2; cases h2)]
            exact ih _ k v hnd.2 htl hlen
        | none =>
            rw [projectInputs_cons_nonstr k0 _ tl sp (by intro s h2; cases h2)]
            exact ih _ k v hnd.2 htl hlen
        | dict fs =>
            rw [projectInputs_cons_nonstr k0 _ tl sp (by intro s h2; cases h2)]
            exact ih _ k v hnd.2 htl hlen
        | list xs =>
            rw [projectInputs_cons_nonstr k0 _ tl sp (by intro s h2; cases h2)]
            exact ih _ k v hnd.2 htl hlen

/-- Exact resolution: a non-empty (truthy) id that is in the correlation
table resolves to exactly the span registered under it, and the
name-based fallback never runs. -/
theorem findToolSpan_exact (n id : String) (tbl : List (String × Span)) (sp : Span)
    (hne : id ≠ "") (hlk : dlookup tbl id = some sp) :
    findToolSpan n (some id) tbl = some (id, sp) := by
  simp [findToolSpan, hne, hlk]

/-- Computation of `on_pre_tool_use` on an open session with populated
metrics. -/
theorem on_pre_tool_use_open (n : String) (inp : List (String × PyVal))
    (uid : Option String) (now : Nat) (sess : Span) (m : Metrics)
    (tbl : List (String × Span)) (msgs : List (String × String)) (tu : List String)
    (exp : List Span) (lg : List (LogLevel × String)) :
    on_pre_tool_use n inp uid now ⟨some sess, tbl, some m, msgs, tu, exp, lg⟩ =
      (.ok [("tool_id", resolveToolId uid n now)],
       ⟨some (sess.add_event ("Tool started: " ++ n) []),
        dinsert tbl (resolveToolId uid n now) (buildToolSpan n inp),
        some { m with tools_used := m.tools_used + 1 },
        msgs, tu ++ [n], exp, lg ++ preLogs n inp⟩) := rfl

/-- Computation of `on_post_tool_use` when the span search succeeds. -/
theorem on_post_tool_use_found (n : String) (r : Option PyVal) (uid : Option String)
    (sess : Span) (tbl : List (String × Span)) (met : Option Metrics)
    (msgs : List (String × String)) (tu : List String) (exp : List Span)
    (lg : List (LogLevel × String)) (tid : String) (sp : Span)
    (hfind : findToolSpan n uid tbl = some (tid, sp)) :
    on_post_tool_use n r uid ⟨some sess, tbl, met, msgs, tu, exp, lg⟩ =
      (.ok [],
       ⟨some (sess.add_event ("Tool completed: " ++ n) []),
        (if tid = "" then tbl else dremove tbl tid),
        met, msgs, tu, exp ++ [finishToolSpan r sp],
        lg ++ postLogs n r ++ respLogs n r⟩) := by
  simp only [on_post_tool_use, postApply, hfind]

/-- Computation of `on_post_tool_use` when the span search fails and a
session is open: the event is dropped, only logging happens. -/
theorem on_post_tool_use_miss (n : String) (r : Option PyVal) (uid : Option String)
    (sess : Span) (tbl : List (String × Span)) (met : Option Metrics)
    (msgs : List (String × String)) (tu : List String) (exp : List Span)
    (lg : List (LogLevel × String))
    (hfind : findToolSpan n uid tbl = Option.none) :
    on_post_tool_use n r uid ⟨some sess, tbl, met, msgs, tu, exp, lg⟩ =
      (.ok [],
       ⟨some (sess.add_event ("Tool completed: " ++ n) []),
        tbl, met, msgs, tu, exp,
        lg ++ postLogs n r ++ missLogs n uid tbl⟩) := by
  simp only [on_post_tool_use, postApply, hfind]

/-- Computation of `on_post_tool_use` when the span search fails and no
session is open (controller IDLE): nothing but logging happens. -/
theorem on_post_tool_use_miss_idle (n : String) (r : Option PyVal) (uid : Option String)
    (tbl : List (String × Span)) (met : Option Metrics)
    (msgs : List (String × String)) (tu : List String) (exp : List Span)
    (lg : List (LogLevel × String))
    (hfind : findToolSpan n uid tbl = Option.none) :
    on_post_tool_use n r uid ⟨Option.none, tbl, met, msgs, tu, exp, lg⟩ =
      (.ok [],
       ⟨Option.none, tbl, met, msgs, tu, exp,
        lg ++ postLogs n r ++ missLogs n uid tbl⟩) := by
  simp only [on_post_tool_use, postApply, hfind]

/-- Invariant induction for uniquely identified tool-call traces: starting
from any open session whose correlation-table keys are exactly the
pending ids (all drawn from the previously used ids), a trace accepted
by `pairedOK`/`allIdsNonempty` runs without raising and finishes with an
empty correlation table. -/
theorem runTrace_paired (tr : List ToolEvent) :
    ∀ (used pending : List String) (st : HooksState),
      pairedOK used pending tr = true → allIdsNonempty tr = true →
      st.session_span.isSome = true → st.metrics.isSome = true →
      st.tool_spans.map Prod.fst = pending → (∀ k ∈ pending, k ∈ used) →
      ∃ st2, runTrace st tr = .ok st2 ∧ st2.tool_spans = [] := by
  induction tr with
  | nil =>
      intro used pending st hp _ _ _ hkeys _
      simp only [pairedOK] at hp
      have hpe : pending = [] := List.isEmpty_iff.mp hp
      subst hpe
      exact ⟨st, rfl, List.map_eq_nil_iff.mp hkeys⟩
  | cons e rest ih =>
      intro used pending st hp hne hsess hmet hkeys hsub
      cases e with
      | pre n inp id now =>
          simp only [pairedOK] at hp
          by_cases hidu : id ∈ used
          · rw [if_pos hidu] at hp
            exact absurd hp (by simp)
          rw [if_neg hidu] at hp
          simp only [allIdsNonempty] at hne
          by_cases hid0 : id = ""
          · rw [if_pos hid0] at hne
            exact absurd hne (by simp)
          rw [if_neg hid0] at hne
          obtain ⟨osess, tbl, omet, msgs, tu, exp, lg⟩ := st
          cases osess with
          | none => simp at hsess
          | some sess =>
          cases omet with
          | none => simp at hmet
          | some m =>
          simp only at hkeys
          have hrid : resolveToolId (some id) n now = id := by
            simp [resolveToolId, hid0]
          have hidp : id ∉ pending := fun hin => hidu (hsub id hin)
          have hidtbl : id ∉ tbl.map Prod.fst := fun hin => hidp (hkeys ▸ hin)
          have hstep : runToolEvent ⟨some sess, tbl, some m, msgs, tu, exp, lg⟩
              (.pre n inp id now) =
              .ok ⟨some (sess.add_event ("Tool started: " ++ n) []),
                   dinsert tbl id (buildToolSpan n inp),
                   some { m with tools_used := m.tools_used + 1 },
                   msgs, tu ++ [n], exp, lg ++ preLogs n inp⟩ := by
            simp only [runToolEvent, on_pre_tool_use_open, hrid]
          simp only [runTrace, hstep]
          refine ih (used ++ [id]) (pending ++ [id])
            ⟨some (sess.add_event ("Tool started: " ++ n) []),
             dinsert tbl id (buildToolSpan n inp),
             some { m with tools_used := m.tools_used + 1 },
             msgs, tu ++ [n], exp, lg ++ preLogs n inp⟩ hp hne rfl rfl ?_ ?_
          · simp only
            rw [keys_dinsert_of_not_mem tbl id _ hidtbl, hkeys]
          · intro k hk
            rcases List.mem_append.mp hk with hk | hk
            · exact List.mem_append.mpr (Or.inl (hsub k hk))
            · exact List.mem_append.mpr (Or.inr hk)
      | post n r id =>
          simp only [pairedOK] at hp
          by_cases hidp : id ∈ pending
          · rw [if_pos hidp] at hp
            simp only [allIdsNonempty] at hne
            by_cases hid0 : id = ""
            · rw [if_pos hid0] at hne
              exact absurd hne (by simp)
            rw [if_neg hid0] at hne
            obtain ⟨osess, tbl, omet, msgs, tu, exp, lg⟩ := st
            cases osess with
            | none => simp at hsess
            | some sess =>
            simp only at hkeys hmet
            have hmemk : id ∈ tbl.map Prod.fst := hkeys ▸ hidp
            obtain ⟨sp, hsp⟩ := dlookup_isSome_of_mem tbl id hmemk
            have hfind := findToolSpan_exact n id tbl sp hid0 hsp
            have hstep : runToolEvent ⟨some sess, tbl, omet, msgs, tu, exp, lg⟩
                (.post n r id) =
                .ok ⟨some (sess.add_event ("Tool completed: " ++ n) []),
                     dremove tbl id, omet, msgs, tu,
                     exp ++ [finishToolSpan r sp],
                     lg ++ postLogs n r ++ respLogs n r⟩ := by
              simp only [runToolEvent, on_post_tool_use_found n r (some id) sess tbl omet
                msgs tu exp lg id sp hfind, if_neg hid0]
            simp only [runTrace, hstep]
            refine ih used (pending.erase id)
              ⟨some (sess.add_event ("Tool completed: " ++ n) []),
               dremove tbl id, omet, msgs, tu,
               exp ++ [finishToolSpan r sp],
               lg ++ postLogs n r ++ respLogs n r⟩ hp hne rfl hmet ?_ ?_
            · simp only
              rw [keys_dremove tbl id, hkeys]
            · intro k hk
              exact hsub k (List.mem_of_mem_erase hk)
          · rw [if_neg hidp] at hp
            exact absurd hp (by simp)

/-- The span search finds nothing in an empty correlation table. -/
theorem findToolSpan_nil (n : String) (uid : Option String) :
    findToolSpan n uid [] = Option.none := by
  cases uid with
  | none => rfl
  | some id =>
      by_cases hid : id = ""
      · simp [findToolSpan, hid, fallbackFind]
      · simp [findToolSpan, hid, fallbackFind, dlookup]

/-! ### Claims -/

/-- C1 (amended: ids additionally non-empty): within one open session,
for every sequence of pre/post tool hooks in which every call supplies a
unique **non-empty** `tool_call_id`, (1) the whole trace runs without
raising and the correlation table is empty afterwards, and (2) each
post-tool-use resolves to exactly the span registered under its id,
ends it (the exported span is the finished registered span, with
`ended = true`) and removes its table entry. -/
theorem claim_C1_unique_ids :
    (∀ (st : HooksState) (tr : List ToolEvent),
        st.session_span.isSome = true → st.metrics.isSome = true →
        st.tool_spans = [] →
        pairedOK [] [] tr = true → allIdsNonempty tr = true →
        ∃ st2, runTrace st tr = .ok st2 ∧ st2.tool_spans = [])
    ∧ (∀ (st : HooksState) (sess sp : Span) (n id : String) (r : Option PyVal),
        id ≠ "" → st.session_span = some sess → dlookup st.tool_spans id = some sp →
        findToolSpan n (some id) st.tool_spans = some (id, sp)
        ∧ (on_post_tool_use n r (some id) st).1 = .ok []
        ∧ (on_post_tool_use n r (some id) st).2.tool_spans = dremove st.tool_spans id
        ∧ (on_post_tool_use n r (some id) st).2.exported
            = st.exported ++ [finishToolSpan r sp]
        ∧ (finishToolSpan r sp).ended = true) := by
  constructor
  · intro st tr hsess hmet htbl hp hne
    refine runTrace_paired tr [] [] st hp hne hsess hmet ?_ ?_
    · rw [htbl]
      rfl
    · intro k hk
      simp at hk
  · intro st sess sp n id r hid0 hsess hlk
    obtain ⟨osess, tbl, omet, msgs, tu, exp, lg⟩ := st
    simp only at hsess hlk
    subst hsess
    have hfind := findToolSpan_exact n id tbl sp hid0 hlk
    rw [on_post_tool_use_found n r (some id) sess tbl omet msgs tu exp lg id sp hfind]
    refine ⟨hfind, rfl, ?_, rfl, finishToolSpan_ended r sp⟩
    simp only [if_neg hid0]

/-- Concrete open session used by witnesses: prompt "fix bug" just
submitted, empty correlation table. -/
def wOpenEmpty : HooksState := (on_user_prompt_submit "fix bug" "s1" "m1" 0 initHooks).2

/-- A registered tool span for witnesses. -/
def wSpan : Span := ⟨"🔧 Read", [("tool.name", .s "Read")], [], false⟩

/-- Open session whose table holds `wSpan` under key `"x"`. -/
def wOpenTbl : HooksState :=
  ⟨some (newSessionSpan "fix bug" "m1" "s1"), [("x", wSpan)],
   some ⟨"fix bug", "m1", 0, 0, 0, 0, 0⟩, [("user", "fix bug")], [], [], []⟩

/-- A uniquely identified, fully paired two-tool trace. -/
def wTrace : List ToolEvent :=
  [.pre "Read" [] "a" 1, .pre "Write" [] "b" 2,
   .post "Read" Option.none "a", .post "Write" Option.none "b"]

/-- C1 witness: the amended claim at the concrete trace `wTrace` and the
concrete table of `wOpenTbl`. -/
theorem claim_C1_unique_ids_witness :
    (∃ st2, runTrace wOpenEmpty wTrace = .ok st2 ∧ st2.tool_spans = [])
    ∧ (findToolSpan "Read" (some "x") wOpenTbl.tool_spans = some ("x", wSpan)
       ∧ (on_post_tool_use "Read" Option.none (some "x") wOpenTbl).1 = .ok []
       ∧ (on_post_tool_use "Read" Option.none (some "x") wOpenTbl).2.tool_spans
           = dremove wOpenTbl.tool_spans "x"
       ∧ (on_post_tool_use "Read" Option.none (some "x") wOpenTbl).2.exported
           = wOpenTbl.exported ++ [finishToolSpan Option.none wSpan]
       ∧ (finishToolSpan Option.none wSpan).ended = true) :=
  ⟨claim_C1_unique_ids.1 wOpenEmpty wTrace rfl rfl rfl (by decide) (by decide),
   claim_C1_unique_ids.2 wOpenTbl (newSessionSpan "fix bug" "m1" "s1") wSpan
     "Read" "x" Option.none (by decide) rfl rfl⟩

/-- Open session for the C1 counterexample. -/
def cexStart : HooksState := (on_user_prompt_submit "p" "s1" "m1" 0 initHooks).2

/-- A fully paired trace with unique ids in which one supplied id is the
empty string `""` (falsy in Python). -/
def cexTrace : List ToolEvent :=
  [.pre "A" [] "" 1, .pre "B" [] "A_7" 2,
   .post "A" Option.none "", .post "B" Option.none "A_7"]

/-- The correlation-table keys left after running the counterexample
trace (`["raised"]` would indicate an exception). -/
def cexFinalKeys : List String :=
  match runTrace cexStart cexTrace with
  | .ok st => st.tool_spans.map Prod.fst
  | .error _ => ["raised"]

/-- C1 counterexample: the claim as stated is false.  The trace
`cexTrace` supplies a unique `tool_call_id` on every call and every pair
completes (`pairedOK`), yet the correlation table is *not* empty at the
end: the empty-string id makes the pre hook register a synthesised key
`A_1`; the post hook for `A` then falls back to name matching, resolves
the span registered for tool `B` (whose supplied id `A_7` starts with
`A_`), and the final post finds no span, leaving `A_1` in the table. -/
theorem claim_C1_counterexample :
    pairedOK [] [] cexTrace = true ∧ cexFinalKeys = ["A_1"] ∧ cexFinalKeys ≠ [] := by
  refine ⟨by decide, by decide, by decide⟩

/-- C2 (amended): a second prompt-submitted event while a session is open
is neither rejected nor finalises the prior session.  It returns
normally, overwrites the controller's session state with a fresh session
span, and leaves the export pipeline untouched — the prior session span
is never ended, it is simply leaked. -/
theorem claim_C2_second_submit :
    ∀ (st : HooksState) (sess : Span) (prompt session_id model : String) (now : Nat),
      st.session_span = some sess →
      (on_user_prompt_submit prompt session_id model now st).1 = .ok []
      ∧ (on_user_prompt_submit prompt session_id model now st).2.session_span
          = some (newSessionSpan prompt model session_id)
      ∧ (on_user_prompt_submit prompt session_id model now st).2.exported = st.exported := by
  intro st sess prompt session_id model now hs
  exact ⟨rfl, rfl, rfl⟩

/-- Controller state after a first prompt was submitted. -/
def c2Start : HooksState := (on_user_prompt_submit "first" "s1" "m1" 0 initHooks).2

/-- C2 witness: the amended behaviour at a concrete second submit. -/
theorem claim_C2_second_submit_witness :
    (on_user_prompt_submit "second" "s2" "m1" 1 c2Start).1 = .ok []
    ∧ (on_user_prompt_submit "second" "s2" "m1" 1 c2Start).2.session_span
        = some (newSessionSpan "second" "m1" "s2")
    ∧ (on_user_prompt_submit "second" "s2" "m1" 1 c2Start).2.exported = c2Start.exported :=
  claim_C2_second_submit c2Start (newSessionSpan "first" "m1" "s1") "second" "s2" "m1" 1 rfl

/-- C2 counterexample: the claim as stated is false at a concrete input.
With a session already open, a second prompt-submit neither raises any
error nor ends (exports) the prior session span: the call succeeds and
the export pipeline stays empty. -/
theorem claim_C2_counterexample :
    ¬ ((∃ e, (on_user_prompt_submit "second" "s2" "m1" 1 c2Start).1 = .error e)
       ∨ (on_user_prompt_submit "second" "s2" "m1" 1 c2Start).2.exported ≠ []) := by
  intro h
  rcases h with ⟨e, he⟩ | hb
  · exact Except.noConfusion he
  · exact hb rfl

/-- C3: a post-tool-use inside an open session for which the span search
finds nothing never raises: it returns the empty result, leaves the
correlation table, the exporter and the session span's attributes (its
error state) untouched, only appends the `Tool completed` event, and
logs the miss at error level. -/
theorem claim_C3_missing_span :
    ∀ (n : String) (r : Option PyVal) (uid : Option String) (st : HooksState) (sess : Span),
      st.session_span = some sess →
      findToolSpan n uid st.tool_spans = Option.none →
      (on_post_tool_use n r uid st).1 = .ok []
      ∧ (on_post_tool_use n r uid st).2.session_span
          = some (sess.add_event ("Tool completed: " ++ n) [])
      ∧ (sess.add_event ("Tool completed: " ++ n) []).attrs = sess.attrs
      ∧ (on_post_tool_use n r uid st).2.tool_spans = st.tool_spans
      ∧ (on_post_tool_use n r uid st).2.exported = st.exported
      ∧ (LogLevel.error,
          "❌ No span found for tool: " ++ n ++ " (id: " ++ optStr uid ++ ")")
          ∈ (on_post_tool_use n r uid st).2.log := by
  intro n r uid st sess hs hf
  obtain ⟨osess, tbl, omet, msgs, tu, exp, lg⟩ := st
  simp only at hs hf
  subst hs
  rw [on_post_tool_use_miss n r uid sess tbl omet msgs tu exp lg hf]
  refine ⟨rfl, rfl, rfl, rfl, rfl, ?_⟩
  simp [missLogs]

/-- C3 witness: a concrete post-tool-use with an empty table. -/
theorem claim_C3_missing_span_witness :
    (on_post_tool_use "Grep" (some (.str "ok")) Option.none wOpenEmpty).1 = .ok []
    ∧ (on_post_tool_use "Grep" (some (.str "ok")) Option.none wOpenEmpty).2.session_span
        = some ((newSessionSpan "fix bug" "m1" "s1").add_event "Tool completed: Grep" [])
    ∧ ((newSessionSpan "fix bug" "m1" "s1").add_event "Tool completed: Grep" []).attrs
        = (newSessionSpan "fix bug" "m1" "s1").attrs
    ∧ (on_post_tool_use "Grep" (some (.str "ok")) Option.none wOpenEmpty).2.tool_spans
        = wOpenEmpty.tool_spans
    ∧ (on_post_tool_use "Grep" (some (.str "ok")) Option.none wOpenEmpty).2.exported
        = wOpenEmpty.exported
    ∧ (LogLevel.error, "❌ No span found for tool: " ++ "Grep" ++ " (id: " ++ optStr Option.none ++ ")")
        ∈ (on_post_tool_use "Grep" (some (.str "ok")) Option.none wOpenEmpty).2.log :=
  claim_C3_missing_span "Grep" (some (.str "ok")) Option.none wOpenEmpty
    (newSessionSpan "fix bug" "m1" "s1") rfl (findToolSpan_nil "Grep" Option.none)

/-- Controller state back in IDLE after one full session completed. -/
def c4Idle : HooksState :=
  (complete_session false 9 (on_user_prompt_submit "p" "s1" "m1" 0 initHooks).2).2

/-- C4 (code bug): a message-complete carrying usage data that arrives
while the controller is IDLE does **not** return normally: the unguarded
`self.metrics["input_tokens"] += ...` hits the empty metrics dict and
raises `KeyError`, both in the fresh controller state and after a
completed session. -/
theorem claim_C4_idle_message_keyerror :
    on_message_complete (some (1, 2)) Option.none initHooks
      = (.error (.keyError "input_tokens"), initHooks)
    ∧ on_message_complete (some (1, 2)) (some "hi") c4Idle
      = (.error (.keyError "input_tokens"), c4Idle) :=
  ⟨rfl, rfl⟩

/-- C5 (amended): on an open session, `complete_session` with a
*successful* flush resets the whole controller state to IDLE; but when
the flush primitive raises, the exception propagates to the caller and
the reset does not run — the ended session span and the metrics are
still in place. -/
theorem claim_C5_flush_failure :
    ∀ (st : HooksState) (sess : Span) (m : Metrics) (now : Nat),
      st.session_span = some sess → st.metrics = some m →
      ((complete_session false now st).1 = .ok ()
       ∧ (complete_session false now st).2.session_span = Option.none
       ∧ (complete_session false now st).2.tool_spans = []
       ∧ (complete_session false now st).2.metrics = Option.none
       ∧ (complete_session false now st).2.messages = []
       ∧ (complete_session false now st).2.tools_used = [])
      ∧ ((complete_session true now st).1 = .error (.externalError "force_flush raised")
         ∧ (complete_session true now st).2.session_span
             = some (finalizeSessionSpan sess m st.tools_used)
         ∧ (complete_session true now st).2.metrics = some m) := by
  intro st sess m now hs hm
  obtain ⟨osess, tbl, omet, msgs, tu, exp, lg⟩ := st
  simp only at hs hm
  subst hs
  subst hm
  exact ⟨⟨rfl, rfl, rfl, rfl, rfl, rfl⟩, rfl, rfl, rfl⟩

/-- Open session for the C5 witness and counterexample. -/
def c5Start : HooksState := (on_user_prompt_submit "p" "s1" "m1" 0 initHooks).2

/-- C5 witness: the amended claim at a concrete open session. -/
theorem claim_C5_flush_failure_witness :
    ((complete_session false 5 c5Start).1 = .ok ()
     ∧ (complete_session false 5 c5Start).2.session_span = Option.none
     ∧ (complete_session false 5 c5Start).2.tool_spans = []
     ∧ (complete_session false 5 c5Start).2.metrics = Option.none
     ∧ (complete_session false 5 c5Start).2.messages = []
     ∧ (complete_session false 5 c5Start).2.tools_used = [])
    ∧ ((complete_session true 5 c5Start).1 = .error (.externalError "force_flush raised")
       ∧ (complete_session true 5 c5Start).2.session_span
           = some (finalizeSessionSpan (newSessionSpan "p" "m1" "s1")
               ⟨"p", "m1", 0, 0, 0, 0, 0⟩ c5Start.tools_used)
       ∧ (complete_session true 5 c5Start).2.metrics = some ⟨"p", "m1", 0, 0, 0, 0, 0⟩) :=
  claim_C5_flush_failure c5Start (newSessionSpan "p" "m1" "s1")
    ⟨"p", "m1", 0, 0, 0, 0, 0⟩ 5 rfl rfl

/-- C5 counterexample: the claim as stated is false at a concrete open
session — when the flush primitive raises, `complete_session` does *not*
swallow the failure and does *not* reset the state to IDLE. -/
theorem claim_C5_counterexample :
    ¬ ((complete_session true 5 c5Start).1 = .ok ()
       ∧ (complete_session true 5 c5Start).2.session_span = Option.none) := by
  intro h
  exact Except.noConfusion h.1

/-- C6: `complete_session` without an open session raises the invariant
`RuntimeError`, and any successful `complete_session` leaves the state
IDLE, so a second call raises the same invariant error. -/
theorem claim_C6_complete_invariant :
    ∀ (st : HooksState) (b : Bool) (now : Nat),
      (st.session_span = Option.none →
        complete_session b now st = (.error (.runtimeError "No active session span"), st))
      ∧ (∀ (st2 : HooksState) (b2 : Bool) (now2 : Nat),
          complete_session b now st = (.ok (), st2) →
          complete_session b2 now2 st2
            = (.error (.runtimeError "No active session span"), st2)) := by
  intro st b now
  obtain ⟨osess, tbl, omet, msgs, tu, exp, lg⟩ := st
  constructor
  · intro h
    simp only at h
    subst h
    rfl
  · intro st2 b2 now2 h
    cases osess with
    | none => exact Except.noConfusion (congrArg Prod.fst h)
    | some sess =>
        cases omet with
        | none => exact Except.noConfusion (congrArg Prod.fst h)
        | some m =>
            cases b with
            | true => exact Except.noConfusion (congrArg Prod.fst h)
            | false =>
                have h2 := congrArg Prod.snd h
                simp only at h2
                subst h2
                rfl

/-- Open session and its completed (reset) state, for the C6 witness. -/
def c6Open : HooksState := (on_user_prompt_submit "p" "s1" "m1" 0 initHooks).2

/-- State after a successful `complete_session` on `c6Open`. -/
def c6Reset : HooksState := (complete_session false 3 c6Open).2

/-- C6 witness: the invariant error on the fresh controller and on the
state right after a successful completion. -/
theorem claim_C6_complete_invariant_witness :
    complete_session false 0 initHooks
      = (.error (.runtimeError "No active session span"), initHooks)
    ∧ complete_session true 4 c6Reset
      = (.error (.runtimeError "No active session span"), c6Reset) :=
  ⟨(claim_C6_complete_invariant initHooks false 0).1 rfl,
   (claim_C6_complete_invariant c6Open false 3).2 c6Reset true 4 rfl⟩

/-- Setting an attribute makes it the value looked up under its key. -/
theorem dlookup_set_attribute_self (sp : Span) (k : String) (v : AttrVal) :
    dlookup (sp.set_attribute k v).attrs k = some v :=
  dlookup_dinsert_self sp.attrs k v

/-- Setting an attribute leaves every other key's lookup unchanged. -/
theorem dlookup_set_attribute_ne (sp : Span) (k key : String) (v : AttrVal)
    (h : key ≠ k) :
    dlookup (sp.set_attribute k v).attrs key = dlookup sp.attrs key :=
  dlookup_dinsert_ne sp.attrs k key v h

/-- A conditional attribute write leaves every other key unchanged. -/
theorem dlookup_ite_set_ne (c : Prop) [Decidable c] (sp : Span) (k key : String)
    (v : AttrVal) (h : key ≠ k) :
    dlookup (if c then sp.set_attribute k v else sp).attrs key
      = dlookup sp.attrs key := by
  by_cases hc : c
  · rw [if_pos hc]
    exact dlookup_set_attribute_ne sp k key v h
  · rw [if_neg hc]

/-- The optional cost attribute leaves every other key unchanged. -/
theorem dlookup_setCost_ne (cost : Option Nat) (sp : Span) (key : String)
    (h : key ≠ "llm.usage.cost_usd") :
    dlookup (setCost cost sp).attrs key = dlookup sp.attrs key := by
  cases cost with
  | none => rfl
  | some c => exact dlookup_set_attribute_ne sp _ key _ h

/-- C7 (amended): for a non-empty tool input inside an open session, the
pre-tool hook registers the built tool span; string-valued entries under
the 100-character threshold become individual `tool.input.<key>`
attributes; non-string entries get no individual attribute and appear
only inside the single `Tool input` event, whose content is
`str(tool_input)` truncated to 500 characters by a bare slice — no
ellipsis marker is appended (entries past the cap are silently cut). -/
theorem claim_C7_input_projection :
    ∀ (n : String) (inp : List (String × PyVal)) (uid : Option String) (now : Nat)
      (st : HooksState) (sess : Span) (m : Metrics),
      st.session_span = some sess → st.metrics = some m → inp ≠ [] →
      (on_pre_tool_use n inp uid now st).1 = .ok [("tool_id", resolveToolId uid n now)]
      ∧ (on_pre_tool_use n inp uid now st).2.tool_spans
          = dinsert st.tool_spans (resolveToolId uid n now) (buildToolSpan n inp)
      ∧ (buildToolSpan n inp).events
          = [("Tool input", [("input", .s (strTake (pyStr (.dict inp)) 500))])]
      ∧ (∀ k v, (inp.map Prod.fst).Nodup → (k, PyVal.str v) ∈ inp → v.length < 100 →
          dlookup (buildToolSpan n inp).attrs ("tool.input." ++ k) = some (.s v)) := by
  intro n inp uid now st sess m hs hm hne
  obtain ⟨osess, tbl, omet, msgs, tu, exp, lg⟩ := st
  simp only at hs hm
  subst hs
  subst hm
  have hie : inp.isEmpty = false := by
    cases inp
    · exact absurd rfl hne
    · rfl
  refine ⟨rfl, rfl, ?_, ?_⟩
  · simp [buildToolSpan, hie, Span.add_event, projectInputs_events]
  · intro k v hnd hmem hlen
    have hb : (buildToolSpan n inp).attrs
        = (projectInputs inp ⟨"🔧 " ++ n, [("tool.name", .s n)], [], false⟩).attrs := by
      simp [buildToolSpan, hie, Span.add_event]
    rw [hb]
    exact projectInputs_lookup_str inp _ k v hnd hmem hlen

/-- C7 witness: the amended claim at the concrete input
`{"path": "/a.py"}`. -/
theorem claim_C7_input_projection_witness :
    (on_pre_tool_use "Read" [("path", .str "/a.py")] Option.none 3 wOpenEmpty).1
        = .ok [("tool_id", resolveToolId Option.none "Read" 3)]
    ∧ (on_pre_tool_use "Read" [("path", .str "/a.py")] Option.none 3 wOpenEmpty).2.tool_spans
        = dinsert wOpenEmpty.tool_spans (resolveToolId Option.none "Read" 3)
            (buildToolSpan "Read" [("path", .str "/a.py")])
    ∧ (buildToolSpan "Read" [("path", .str "/a.py")]).events
        = [("Tool input",
            [("input", .s (strTake (pyStr (.dict [("path", .str "/a.py")])) 500))])]
    ∧ dlookup (buildToolSpan "Read" [("path", .str "/a.py")]).attrs
        ("tool.input." ++ "path") = some (.s "/a.py") :=
  have h := claim_C7_input_projection "Read" [("path", .str "/a.py")] Option.none 3
    wOpenEmpty (newSessionSpan "fix bug" "m1" "s1") ⟨"fix bug", "m1", 0, 0, 0, 0, 0⟩
    rfl rfl (by simp)
  ⟨h.1, h.2.1, h.2.2.1, h.2.2.2 "path" "/a.py" (by simp) (by simp) (by decide)⟩

/-- A tool input whose `str()` rendering exceeds the 500-character cap:
one 600-character string value followed by an integer entry. -/
def c7Input : List (String × PyVal) :=
  [("k", .str (String.mk (List.replicate 600 'a'))), ("n", .int 7)]

set_option maxRecDepth 100000

/-- C7 counterexample: the claim as stated is false at `c7Input` — the
full input's `str()` exceeds the 500-character cap, yet the `Tool input`
event is *not* the capped text with an ellipsis marker appended; the
code stores the bare 500-character slice (and the trailing entries,
such as the integer under `"n"`, are silently cut off with it). -/
theorem claim_C7_counterexample :
    (pyStr (.dict c7Input)).length > 500
    ∧ (buildToolSpan "T" c7Input).events
        ≠ [("Tool input",
            [("input", .s (strTake (pyStr (.dict c7Input)) 500 ++ "..."))])] := by
  constructor
  · simp only [c7Input, pyStr, pyRepr, pyReprEntries]
    decide
  · simp only [c7Input, buildToolSpan, pyStr, pyRepr, pyReprEntries]
    decide

/-- C8: vendor projection of the usage sub-object.  With a final
response present, the `response_data` attribute is the JSON dump of the
response blob; with both token counts zero that blob has no `usage`
field at all; with both nonzero the `usage` field holds the input and
output token counts and their sum as `total_tokens`. -/
theorem claim_C8_usage_projection :
    ∀ (sp : Span) (model : String) (messages : List (String × String)) (r : String)
      (tools : List String) (it ot : Nat) (cost : Option Nat),
      r ≠ "" →
      dlookup (format_for_logfire_llm sp model messages (some r) tools it ot cost).attrs
          "response_data" = some (.s (jsonDumps (responseData r it ot)))
      ∧ (it = 0 → ot = 0 → jfield (responseData r it ot) "usage" = Option.none)
      ∧ (it ≠ 0 → ot ≠ 0 →
          jfield (responseData r it ot) "usage"
            = some (.obj [("input_tokens", .num it), ("output_tokens", .num ot),
                          ("total_tokens", .num (it + ot))])) := by
  intro sp model messages r tools it ot cost hr
  refine ⟨?_, ?_, ?_⟩
  · simp only [format_for_logfire_llm]
    rw [if_neg hr]
    by_cases htl : tools.isEmpty = true
    · rw [if_pos htl]
      rw [dlookup_setCost_ne _ _ _ (by decide),
          dlookup_ite_set_ne _ _ _ _ _ (by decide),
          dlookup_ite_set_ne _ _ _ _ _ (by decide),
          dlookup_set_attribute_ne _ _ _ _ (by decide),
          dlookup_set_attribute_ne _ _ _ _ (by decide)]
      exact dlookup_set_attribute_self _ _ _
    · rw [if_neg htl]
      rw [dlookup_set_attribute_ne _ _ _ _ (by decide),
          dlookup_set_attribute_ne _ _ _ _ (by decide),
          dlookup_setCost_ne _ _ _ (by decide),
          dlookup_ite_set_ne _ _ _ _ _ (by decide),
          dlookup_ite_set_ne _ _ _ _ _ (by decide),
          dlookup_set_attribute_ne _ _ _ _ (by decide),
          dlookup_set_attribute_ne _ _ _ _ (by decide)]
      exact dlookup_set_attribute_self _ _ _
  · intro h1 h2
    subst h1
    subst h2
    simp [responseData, jfield, dlookup]
  · intro h1 h2
    simp [responseData, usageData, jfield, dlookup, h1, h2]

/-- C8 witness: the projection at a concrete span with zero counts. -/
theorem claim_C8_usage_projection_witness :
    dlookup (format_for_logfire_llm ⟨"s", [], [], false⟩ "m" [("user", "hi")]
        (some "ok") [] 0 0 Option.none).attrs "response_data"
      = some (.s (jsonDumps (responseData "ok" 0 0)))
    ∧ (0 = 0 → 0 = 0 → jfield (responseData "ok" 0 0) "usage" = Option.none)
    ∧ ((0 : Nat) ≠ 0 → (0 : Nat) ≠ 0 →
        jfield (responseData "ok" 0 0) "usage"
          = some (.obj [("input_tokens", .num 0), ("output_tokens", .num 0),
                        ("total_tokens", .num (0 + 0))])) :=
  claim_C8_usage_projection ⟨"s", [], [], false⟩ "m" [("user", "hi")] "ok" [] 0 0
    Option.none (by decide)

/-- C9 (amended): a missing config file or malformed JSON yields the
"no servers" result (`none`) and never raises; in every loaded
descriptor `transport` is renamed to `type` and all fields other than
`transport` and `type` are preserved — but a pre-existing `type` field
is overwritten in place by the renamed `transport` value. -/
theorem claim_C9_mcp_load :
    load_mcp_config .missing = Option.none
    ∧ load_mcp_config .malformedJson = Option.none
    ∧ (∀ servers, servers ≠ [] →
        load_mcp_config (.parsed servers)
          = some (servers.map (fun nd => (nd.1, convertServer nd.2))))
    ∧ (∀ (desc : List (String × PyVal)) (k : String),
        k ≠ "transport" → k ≠ "type" →
        dlookup (convertServer desc) k = dlookup desc k)
    ∧ (∀ (desc : List (String × PyVal)) (tv : PyVal),
        (desc.map Prod.fst).Nodup → dlookup desc "transport" = some tv →
        dlookup (convertServer desc) "type" = some tv
        ∧ dlookup (convertServer desc) "transport" = Option.none) := by
  refine ⟨rfl, rfl, ?_, ?_, ?_⟩
  · intro servers h
    have hie : servers.isEmpty = false := by
      cases servers
      · exact absurd rfl h
      · rfl
    simp [load_mcp_config, hie]
  · intro desc k hk1 hk2
    rcases h2 : dlookup desc "transport" with _ | tv
    · simp only [convertServer, h2]
    · simp only [convertServer, h2]
      rw [dlookup_dinsert_ne _ _ _ _ hk2, dlookup_dremove_ne _ _ _ hk1]
  · intro desc tv hnd h2
    constructor
    · simp only [convertServer, h2]
      exact dlookup_dinsert_self _ _ _
    · simp only [convertServer, h2]
      rw [dlookup_dinsert_ne _ _ _ _ (by decide)]
      exact dlookup_dremove_self desc "transport" hnd

/-- C9 witness: the amended claim at a concrete config with one server. -/
theorem claim_C9_mcp_load_witness :
    load_mcp_config (.parsed [("srv", [("transport", .str "http"), ("url", .str "u")])])
      = some [("srv", convertServer [("transport", .str "http"), ("url", .str "u")])]
    ∧ dlookup (convertServer [("transport", .str "http"), ("url", .str "u")]) "url"
        = dlookup [("transport", PyVal.str "http"), ("url", PyVal.str "u")] "url"
    ∧ (dlookup (convertServer [("transport", .str "http"), ("url", .str "u")]) "type"
        = some (.str "http")
       ∧ dlookup (convertServer [("transport", .str "http"), ("url", .str "u")]) "transport"
        = Option.none) :=
  ⟨claim_C9_mcp_load.2.2.1 [("srv", [("transport", .str "http"), ("url", .str "u")])]
     (by simp),
   claim_C9_mcp_load.2.2.2.1 [("transport", .str "http"), ("url", .str "u")] "url"
     (by decide) (by decide),
   claim_C9_mcp_load.2.2.2.2 [("transport", .str "http"), ("url", .str "u")]
     (.str "http") (by simp) rfl⟩

/-- A server descriptor that carries both a `type` and a `transport`
field. -/
def c9Desc : List (String × PyVal) :=
  [("type", .str "sse"), ("transport", .str "http"), ("url", .str "u")]

/-- C9 counterexample: the claim as stated is false — on a descriptor
with both a `transport` and a pre-existing `type` field, the rename does
*not* preserve all fields other than `transport`: the original `type`
value `"sse"` is overwritten by `"http"`. -/
theorem claim_C9_counterexample :
    ¬ (∀ k, k ≠ "transport" → dlookup (convertServer c9Desc) k = dlookup c9Desc k) := by
  intro h
  have h2 := congrArg (Option.map pyStr) (h "type" (by decide))
  exact absurd (h2 : (some "http" : Option String) = some "sse") (by decide)

/-- C10: with no session open at all (IDLE controller, empty table), a
post-tool-use returns normally with the empty result, while a
pre-tool-use in the same state raises the invariant `RuntimeError` —
a stray tool completion after finalisation is tolerated silently,
asymmetrically with tool starts. -/
theorem claim_C10_idle_asymmetry :
    ∀ (n : String) (r : Option PyVal) (uid : Option String)
      (inp : List (String × PyVal)) (now : Nat) (st : HooksState),
      st.session_span = Option.none → st.tool_spans = [] →
      (on_post_tool_use n r uid st).1 = .ok []
      ∧ on_pre_tool_use n inp uid now st
          = (.error (.runtimeError "No active session span"), st) := by
  intro n r uid inp now st hs ht
  obtain ⟨osess, tbl, omet, msgs, tu, exp, lg⟩ := st
  simp only at hs ht
  subst hs
  subst ht
  constructor
  · rw [on_post_tool_use_miss_idle n r uid [] omet msgs tu exp lg (findToolSpan_nil n uid)]
  · rfl

/-- C10 witness: both behaviours on the freshly initialised controller. -/
theorem claim_C10_idle_asymmetry_witness :
    (on_post_tool_use "Read" Option.none Option.none initHooks).1 = .ok []
    ∧ on_pre_tool_use "Read" [] Option.none 3 initHooks
        = (.error (.runtimeError "No active session span"), initHooks) :=
  claim_C10_idle_asymmetry "Read" Option.none Option.none [] 3 initHooks rfl rfl
